import Mathlib

/-!
Verification of the confirmation-token authentication flow (provider.VerifyHandler).

Go strings are embedded as lists of characters (the inputs of interest are
ASCII, where Go bytes and runes coincide). External collaborators — the
token service, the sender, the template engine, the avatar saver, the user
saver, the gravatar lookup, the bluemonday sanitizer policy and the hash —
are parameters of the model, exactly at the interface the source uses.
Time is an integer Unix-seconds value passed in as the current instant.
-/

/-- A Go string, embedded as a list of characters. -/
abbrev GoStr := List Char

/-- Literal Go string from a Lean string literal. -/
def gs (s : String) : GoStr := s.toList

/-- strings.Split(s, "::"): splits around each non-overlapping instance of
the two-colon separator, scanning left to right. -/
def splitCC : GoStr → List GoStr
  | ':' :: ':' :: rest => [] :: splitCC rest
  | c :: rest =>
    match splitCC rest with
    | p :: ps => (c :: p) :: ps
    | [] => [[c]]
  | [] => [[]]

/-- unicode.IsSpace, restricted to the characters strings.TrimSpace can meet
in the ASCII-plus-Latin-1 inputs modelled here. -/
def goIsSpace (c : Char) : Bool :=
  c == ' ' || c == '\t' || c == '\n' || c == '\u000B' || c == '\u000C' ||
  c == '\r' || c == '\u0085' || c == '\u00A0'

/-- strings.TrimSpace: drop leading and trailing whitespace. -/
def trimSpace (s : GoStr) : GoStr :=
  ((s.dropWhile goIsSpace).reverse.dropWhile goIsSpace).reverse

/-- html/template.HTMLEscapeString on one character. -/
def htmlEscapeChar (c : Char) : GoStr :=
  if c = '\'' then gs "&#39;"
  else if c = '"' then gs "&#34;"
  else if c = '&' then gs "&amp;"
  else if c = '<' then gs "&lt;"
  else if c = '>' then gs "&gt;"
  else if c = '\u0000' then gs "�"
  else [c]

/-- html/template.HTMLEscapeString. -/
def htmlEscape : GoStr → GoStr
  | [] => []
  | c :: rest => htmlEscapeChar c ++ htmlEscape rest

/-- strings.ReplaceAll(s, "&amp;", "&"): non-overlapping, left to right. -/
def unescAmp : GoStr → GoStr
  | '&' :: 'a' :: 'm' :: 'p' :: ';' :: rest => '&' :: unescAmp rest
  | c :: rest => c :: unescAmp rest
  | [] => []

/-- strings.ReplaceAll(s, "&#34;", "\""). -/
def unescQuot : GoStr → GoStr
  | '&' :: '#' :: '3' :: '4' :: ';' :: rest => '"' :: unescQuot rest
  | c :: rest => c :: unescQuot rest
  | [] => []

/-- strings.ReplaceAll(s, "&#39;", "'"). -/
def unescApos : GoStr → GoStr
  | '&' :: '#' :: '3' :: '9' :: ';' :: rest => '\'' :: unescApos rest
  | c :: rest => c :: unescApos rest
  | [] => []

/-- VerifyHandler.sanitize: bluemonday policy (a parameter, external), then
HTML escaping, then un-escaping of ampersand and quotes, newline removal,
trimming, and truncation to 128. -/
def sanitize (bm : GoStr → GoStr) (inp : GoStr) : GoStr :=
  let res := htmlEscape (bm inp)
  let res := unescAmp res
  let res := unescQuot res
  let res := unescApos res
  let res := res.filter (fun c => c != '\n')
  let res := trimSpace res
  if 128 < res.length then res.take 128 else res

/-- Modelled from the spec: the bluemonday UGCPolicy sanitizer is an external
dependency (the spec places general-purpose sanitization primitives out of
scope, at the Sanitizer interface boundary). On input carrying no markup the
policy passes the text through HTML-escaped, the way Go html.EscapeString
escapes text nodes. This model covers exactly that markup-free behaviour and
instantiates the policy parameter in concrete runs. -/
def bmUGCText (s : GoStr) : GoStr := htmlEscape s

/-- token.User: the identity record carried in claims. -/
structure User where
  Name : GoStr := []
  ID : GoStr := []
  Picture : GoStr := []
deriving DecidableEq

/-- token.Handshake: the in-flight step marker inside claims. -/
structure Handshake where
  State : GoStr := []
  ID : GoStr := []
  From : GoStr := []
deriving DecidableEq

/-- token.Claims: the signed payload. Fields the source leaves unset keep the
Go zero value, mirrored here by the defaults. -/
structure Claims where
  Handshake : Option Handshake := none
  User : Option User := none
  SessionOnly : Bool := false
  Audience : GoStr := []
  ExpiresAt : Int := 0
  NotBefore : Int := 0
  Issuer : GoStr := []
  Id : GoStr := []
deriving DecidableEq

/-- The data handed to Template.Execute by sendConfirmation. -/
structure TmplData where
  User : GoStr
  Address : GoStr
  Token : GoStr
  Site : GoStr
deriving DecidableEq

/-- The JSON body written by rest.RenderJSON. -/
inductive JsonBody where
  | ack : JsonBody
  | userAddress : GoStr → GoStr → JsonBody
  | userObj : Option User → JsonBody
deriving DecidableEq

/-- What the handler wrote to the response: a JSON body, an error with HTTP
status together with the error detail and public message, a redirect, a
nil-pointer dereference (Go runtime panic), or nothing. -/
inductive Response where
  | json : JsonBody → Response
  | error : Nat → GoStr → GoStr → Response
  | redirect : GoStr → Response
  | panicNilDeref : Response
  | empty : Response
deriving DecidableEq

/-- responseStatus extracts the HTTP status of an error response. -/
def responseStatus : Response → Option Nat
  | .error st _ _ => some st
  | _ => none

/-- The observable outcome of one handler run: the response plus what was
passed to the token service and the sender along the way. -/
structure Out where
  response : Response
  setClaims : Option Claims := none
  issuedToken : Option GoStr := none
  sent : List (GoStr × GoStr) := []
  builtClaims : Option Claims := none
  tmpl : Option TmplData := none

/-- VerifyHandler: the handler configuration, with each external collaborator
as a function parameter at the interface the source uses. -/
structure VerifyHandler where
  ProviderName : GoStr
  Issuer : GoStr
  WithPassword : Bool
  UseGravatar : Bool
  bm : GoStr → GoStr
  hashID : GoStr → GoStr
  UserSaver : Option (User → Option GoStr)
  AvatarSaver : Option (User → Except GoStr GoStr)
  render : TmplData → Except GoStr GoStr
  send : GoStr → GoStr → Option GoStr
  gravatarURL : GoStr → Except GoStr GoStr

/-- VerifTokenService, as seen by one request: each operation yields the
outcome the external service would produce. -/
structure TokenSvc where
  parse : GoStr → Except GoStr Claims
  isExpired : Claims → Bool
  token : Claims → Except GoStr GoStr
  set : Claims → Option GoStr
  get : Except GoStr Claims

/-- One inbound request: the query parameters, the current time, and the
outcome the random-id source would produce for this request. -/
structure Req where
  token : GoStr
  user : GoStr
  address : GoStr
  site : GoStr
  session : GoStr
  now : Int
  randToken : Except GoStr GoStr

/-- Modelled from the spec: the setAvatar helper and the AvatarSaver
collaborator (provider avatar code of this repository) are not under src.
Per the spec the avatar-persistence step receives the identity, persists its
avatar picture, and returns the identity with the picture set or fails; an
absent saver skips the step. It does not alter the name or the ID. -/
def setAvatar (ava : Option (User → Except GoStr GoStr)) (u : User) :
    Except GoStr User :=
  match ava with
  | none => .ok u
  | some put =>
    match put u with
    | .error e => .error e
    | .ok pic => .ok { u with Picture := pic }

/-- The optional UserSaver call: absent means skip, mirrored here by a
successful no-op. -/
def userSaverRun (saver : Option (User → Option GoStr)) (u : User) :
    Option GoStr :=
  match saver with
  | none => none
  | some f => f u

/-- The gravatar step of the passwordless branch: a best-effort picture
lookup whose failure is swallowed. -/
def applyGravatar (e : VerifyHandler) (address : GoStr) (u : User) : User :=
  if e.UseGravatar && address.contains '@' then
    match e.gravatarURL address with
    | .ok pic => { u with Picture := pic }
    | .error _ => u
  else u

/-- The confirm claims sendConfirmation builds once validation passed: the
two sanitized fields joined by the separator as the handshake ID, the
sanitized site as audience, a 30-minute expiry and a one-minute backdated
notBefore, and no user. -/
def confirmClaims (e : VerifyHandler) (r : Req) : Claims := {
  Handshake := some
    { State := gs "confirm",
      ID := sanitize e.bm r.user ++ gs "::" ++ sanitize e.bm r.address },
  SessionOnly := !(r.session == []) && !(r.session == gs "0"),
  Audience := sanitize e.bm r.site,
  ExpiresAt := r.now + 30 * 60,
  NotBefore := r.now - 60,
  Issuer := e.Issuer }

/-- The data sendConfirmation hands to the template: the sanitized user and
address, the signed token, and the raw site query value. -/
def confirmTmpl (e : VerifyHandler) (r : Req) (tkn : GoStr) : TmplData := {
  User := sanitize e.bm r.user,
  Address := sanitize e.bm r.address,
  Token := tkn,
  Site := r.site }

/-- VerifyHandler.sendConfirmation: validate the sanitized user and address,
build the confirm claims, sign, render and dispatch. -/
def sendConfirmation (e : VerifyHandler) (ts : TokenSvc) (r : Req) : Out :=
  if sanitize e.bm r.user = [] ∨ sanitize e.bm r.address = [] then
    { response := .error 400 (gs "wrong request") (gs "cant get user and address") }
  else
    match ts.token (confirmClaims e r) with
    | .error _ =>
      { response := .error 403 [] (gs "failed to make login token"),
        builtClaims := some (confirmClaims e r) }
    | .ok tkn =>
      match e.render (confirmTmpl e r tkn) with
      | .error _ =>
        { response := .error 500 [] (gs "cant execute confirmation template"),
          builtClaims := some (confirmClaims e r), issuedToken := some tkn,
          tmpl := some (confirmTmpl e r tkn) }
      | .ok body =>
        match e.send (sanitize e.bm r.address) body with
        | some _ =>
          { response := .error 500 [] (gs "failed to send confirmation"),
            builtClaims := some (confirmClaims e r), issuedToken := some tkn,
            tmpl := some (confirmTmpl e r tkn) }
        | none =>
          { response := .json (.userAddress (sanitize e.bm r.user)
              (sanitize e.bm r.address)),
            builtClaims := some (confirmClaims e r), issuedToken := some tkn,
            tmpl := some (confirmTmpl e r tkn),
            sent := [(sanitize e.bm r.address, body)] }

/-- The identity the resolver derives from the split handshake ID: the user
part as name, and the provider name joined to the hash of the address as
stable ID. -/
def resolvedUser (e : VerifyHandler) (user address : GoStr) : User :=
  { Name := user, ID := e.ProviderName ++ gs "_" ++ e.hashID address }

/-- The credentials claims the password branch of the resolver sets: same
handshake ID, freshly derived user identity, the sanitized site of the
resolving request as audience, and a fresh 30-minute window. -/
def credClaims (e : VerifyHandler) (r : Req) (hsID user address : GoStr) : Claims := {
  Handshake := some { State := gs "credentials", ID := hsID },
  User := some (resolvedUser e user address),
  SessionOnly := r.session == gs "1",
  Audience := sanitize e.bm r.site,
  ExpiresAt := r.now + 30 * 60,
  NotBefore := r.now - 60,
  Issuer := e.Issuer }

/-- The final session claims the passwordless branch sets: no handshake, the
resolved user, a fresh token id, and the audience copied from the
confirmation token. -/
def finalClaims (e : VerifyHandler) (r : Req) (u : User) (cid aud : GoStr) : Claims := {
  User := some u,
  Id := cid,
  Issuer := e.Issuer,
  Audience := aud,
  SessionOnly := r.session == gs "1" }

/-- The tail of LoginHandler once the presented token parsed, is unexpired
and carries a confirm-state handshake: split the handshake ID and branch on
WithPassword. -/
def resolveConfirmed (e : VerifyHandler) (ts : TokenSvc) (r : Req)
    (confClaims : Claims) (hs : Handshake) : Out :=
  match splitCC hs.ID with
  | [user, address] =>
    if e.WithPassword then
      match ts.set (credClaims e r hs.ID user address) with
      | some _ => { response := .error 403 [] (gs "failed to set token") }
      | none => { response := .json .ack,
                  setClaims := some (credClaims e r hs.ID user address) }
    else
      match setAvatar e.AvatarSaver (applyGravatar e address
        (resolvedUser e user address)) with
      | .error _ =>
        { response := .error 500 [] (gs "failed to save avatar to proxy") }
      | .ok u2 =>
        match userSaverRun e.UserSaver u2 with
        | some _ => { response := .error 500 [] (gs "failed to save user") }
        | none =>
          match r.randToken with
          | .error _ => { response := .error 500 [] (gs "cant make token id") }
          | .ok cid =>
            match ts.set (finalClaims e r u2 cid confClaims.Audience) with
            | some _ => { response := .error 500 [] (gs "failed to set token") }
            | none =>
              if hs.From ≠ [] then
                { response := .redirect hs.From,
                  setClaims := some (finalClaims e r u2 cid confClaims.Audience) }
              else
                { response := .json
                    (.userObj (finalClaims e r u2 cid confClaims.Audience).User),
                  setClaims := some (finalClaims e r u2 cid confClaims.Audience) }
  | _ => { response := .error 400 hs.ID (gs "invalid handshake token") }

/-- VerifyHandler.LoginHandler: without a token delegate to sendConfirmation;
with a token, parse it, check expiry and handshake state, then resolve.
Reading the state of an absent handshake is a nil-pointer dereference in the
source, modelled as the panic response. -/
def LoginHandler (e : VerifyHandler) (ts : TokenSvc) (r : Req) : Out :=
  if r.token = [] then sendConfirmation e ts r
  else
    match ts.parse r.token with
    | .error _ =>
      { response := .error 403 [] (gs "failed to verify confirmation token") }
    | .ok confClaims =>
      if ts.isExpired confClaims then
        { response := .error 403 (gs "expired") (gs "failed to verify confirmation token") }
      else
        match confClaims.Handshake with
        | none => { response := .panicNilDeref }
        | some hs =>
          if hs.State ≠ gs "confirm" then
            { response := .error 403 (gs "confirm") (gs "failed to verify confirmation token") }
          else
            resolveConfirmed e ts r confClaims hs

/-- The tail of AuthHandler shared by both UserSaver configurations: fresh id,
final claims reusing the carried user and audience, set as session token. -/
def authFinish (e : VerifyHandler) (ts : TokenSvc) (r : Req) (claims : Claims)
    (sessOnly : Bool) : Out :=
  match r.randToken with
  | .error _ => { response := .error 500 [] (gs "cant make token id") }
  | .ok cid =>
    let authClaims : Claims := {
      User := claims.User,
      Id := cid,
      Issuer := e.Issuer,
      Audience := claims.Audience,
      SessionOnly := sessOnly }
    match ts.set authClaims with
    | some _ => { response := .error 500 [] (gs "failed to set token") }
    | none =>
      { response := .json (.userObj authClaims.User), setClaims := some authClaims }

/-- VerifyHandler.AuthHandler: the password-mode finalization. Retrieves the
already-set token, requires handshake state credentials, persists the user and
issues the final session claims. Dereferencing the User pointer for an absent
user is a nil-pointer dereference in the source, modelled as the panic
response. -/
def AuthHandler (e : VerifyHandler) (ts : TokenSvc) (r : Req) : Out :=
  if !e.WithPassword then { response := .empty }
  else
    let sessOnly := r.session == gs "1"
    match ts.get with
    | .error _ => { response := .error 500 [] (gs "failed to get token") }
    | .ok claims =>
      match claims.Handshake with
      | none => { response := .error 500 [] (gs "invalid kind of token") }
      | some hs =>
        if hs.State ≠ gs "credentials" then
          { response := .error 500 [] (gs "invalid kind of token") }
        else
          match e.UserSaver with
          | some f =>
            match claims.User with
            | none => { response := .panicNilDeref }
            | some u =>
              match f u with
              | some _ => { response := .error 500 [] (gs "failed to save user") }
              | none => authFinish e ts r claims sessOnly
          | none => authFinish e ts r claims sessOnly

theorem splitCC_ne_nil (s : GoStr) : splitCC s ≠ [] := by
  induction s using splitCC.induct <;> simp_all [splitCC]

theorem splitCC_cons (c : Char) (s : GoStr)
    (h : ¬(c = ':' ∧ s.head? = some ':')) :
    splitCC (c :: s) =
      match splitCC s with
      | p :: ps => (c :: p) :: ps
      | [] => [[c]] := by
  rw [splitCC.eq_def]
  split
  · rename_i rest heq
    injection heq with h1 h2
    exact absurd ⟨h1, by rw [h2]; rfl⟩ h
  · rename_i c' rest hg he
    injection he with h1 h2
    subst h1; subst h2
    rfl
  · rename_i he; exact absurd he (by simp)

theorem splitCC_sep (a : GoStr) : splitCC (':' :: ':' :: a) = [] :: splitCC a := by
  simp [splitCC]

theorem splitCC_append_sep (u a : GoStr)
    (hu : splitCC u = [u]) (hl : u.getLast? ≠ some ':') :
    splitCC (u ++ ':' :: ':' :: a) = u :: splitCC a := by
  induction u with
  | nil => simp [splitCC_sep]
  | cons c rest ih =>
    have hguard : ¬(c = ':' ∧ rest.head? = some ':') := by
      rintro ⟨hc, hd⟩
      subst hc
      rcases rest with _ | ⟨d, rest'⟩
      · simp at hd
      · simp at hd
        subst hd
        rw [splitCC_sep] at hu
        simp at hu
    rw [splitCC_cons c rest hguard] at hu
    rcases hrest : splitCC rest with _ | ⟨p, ps⟩
    · exact absurd hrest (splitCC_ne_nil rest)
    · rw [hrest] at hu
      simp at hu
      rw [hu.1, hu.2] at hrest
      rcases rest with _ | ⟨d, rest'⟩
      · have hc : c ≠ ':' := by simpa using hl
        simp only [List.cons_append, List.nil_append]
        rw [splitCC_cons c (':' :: ':' :: a) (by simp [hc]), splitCC_sep]
      · have hl' : (d :: rest').getLast? ≠ some ':' := by
          rwa [List.getLast?_cons_cons] at hl
        have ih' := ih hrest hl'
        have hhead : ¬(c = ':' ∧ ((d :: rest') ++ ':' :: ':' :: a).head? = some ':') := by
          rintro ⟨hc, hd⟩
          subst hc
          simp at hd
          exact hguard ⟨rfl, by simp [hd]⟩
        rw [List.cons_append, splitCC_cons c _ hhead, ih']

/-- C1: the claim as stated fails. The sanitizer admits the colon, so a user
name already containing the separator makes the encoded handshake ID split
into more than two parts: with user "a::b" and address "c" the encoding
"a::b::c" splits into three parts, not the two sanitized fields. -/
theorem C1_counterexample :
    splitCC (sanitize bmUGCText (gs "a::b") ++ gs "::" ++ sanitize bmUGCText (gs "c")) ≠
      [sanitize bmUGCText (gs "a::b"), sanitize bmUGCText (gs "c")] := by decide

/-- C1 amended: when neither sanitized field contains the separator and the
sanitized user name does not end in a colon, splitting
sanitize(user) ++ "::" ++ sanitize(address) on the separator yields exactly
the two sanitized fields. -/
theorem C1_roundtrip (bm : GoStr → GoStr) (user address : GoStr)
    (hu : splitCC (sanitize bm user) = [sanitize bm user])
    (ha : splitCC (sanitize bm address) = [sanitize bm address])
    (hl : (sanitize bm user).getLast? ≠ some ':') :
    splitCC (sanitize bm user ++ gs "::" ++ sanitize bm address) =
      [sanitize bm user, sanitize bm address] := by
  have h : gs "::" ++ sanitize bm address = ':' :: ':' :: sanitize bm address := rfl
  rw [List.append_assoc, h, splitCC_append_sep _ _ hu hl, ha]

/-- C1 witness: a concrete round trip through the amended statement. -/
theorem C1_roundtrip_witness :
    splitCC (sanitize bmUGCText (gs "ann") ++ gs "::" ++
        sanitize bmUGCText (gs "ann@example.com")) =
      [sanitize bmUGCText (gs "ann"), sanitize bmUGCText (gs "ann@example.com")] :=
  C1_roundtrip bmUGCText (gs "ann") (gs "ann@example.com") (by decide) (by decide) (by decide)

/-- A concrete handler for witness runs: password mode off, no optional
collaborators, and a trivial stand-in instantiating the hash parameter. -/
def eNoPw : VerifyHandler := {
  ProviderName := gs "providerX",
  Issuer := gs "iss",
  WithPassword := false,
  UseGravatar := false,
  bm := bmUGCText,
  hashID := fun a => a,
  UserSaver := none,
  AvatarSaver := none,
  render := fun td => .ok (td.User ++ td.Token),
  send := fun _ _ => none,
  gravatarURL := fun _ => .error [] }

/-- The same concrete handler with password mode on. -/
def ePw : VerifyHandler := { eNoPw with WithPassword := true }

/-- A confirm-state claims as a confirmation for ann and a@b would carry. -/
def confClaims0 : Claims := {
  Handshake := some { State := gs "confirm", ID := gs "ann::a@b" },
  Audience := gs "s1" }

/-- A token service whose parse yields the confirm claims and whose other
operations succeed. -/
def tsConfirm : TokenSvc := {
  parse := fun _ => .ok confClaims0,
  isExpired := fun _ => false,
  token := fun _ => .ok (gs "tok"),
  set := fun _ => none,
  get := .ok confClaims0 }

/-- A token service whose parse yields claims with no handshake at all. -/
def tsNoHandshake : TokenSvc := {
  parse := fun _ => .ok {},
  isExpired := fun _ => false,
  token := fun _ => .ok (gs "tok"),
  set := fun _ => none,
  get := .error (gs "no token") }

/-- A request presenting a confirmation token. -/
def reqTok : Req := {
  token := gs "T", user := [], address := [], site := gs "s1",
  session := gs "2", now := 1000, randToken := .ok (gs "cid") }

/-- A request with no token: a confirmation request for ann and a@b. -/
def reqConf : Req := {
  token := [], user := gs "ann", address := gs "a@b", site := gs "s1",
  session := gs "2", now := 1000, randToken := .ok (gs "cid") }

/-- C2: a token that parses successfully, is not expired, and carries no
handshake at all makes LoginHandler dereference the nil handshake pointer — a
runtime panic — instead of returning the InvalidStateError response the spec
requires for an absent handshake. -/
theorem C2_absent_handshake_panics (e : VerifyHandler) (ts : TokenSvc) (r : Req)
    (c : Claims)
    (htk : r.token ≠ [])
    (hp : ts.parse r.token = .ok c)
    (he : ts.isExpired c = false)
    (hh : c.Handshake = none) :
    (LoginHandler e ts r).response = Response.panicNilDeref := by
  unfold LoginHandler
  simp [htk, hp, he, hh]

/-- C2 witness: the panic at a concrete run. -/
theorem C2_witness :
    (LoginHandler eNoPw tsNoHandshake reqTok).response = Response.panicNilDeref :=
  C2_absent_handshake_panics eNoPw tsNoHandshake reqTok {} (by decide) rfl rfl rfl

/-- C3: the claim as stated fails. Presenting a token in the wrong handshake
state to the password-mode finalizer yields an error response with HTTP
status 500, not the 403 the claim asserts. -/
theorem C3_counterexample :
    responseStatus (AuthHandler ePw tsConfirm reqTok).response = some 500 ∧
    responseStatus (AuthHandler ePw tsConfirm reqTok).response ≠ some 403 := by
  decide

/-- C3 amended: in password mode, an absent retrievable token or one whose
handshake is missing or not in the credentials state makes finalizeCredentials
fail with an error response — surfaced with HTTP status 500 — and set no
session token. -/
theorem C3_wrong_state_errors (e : VerifyHandler) (ts : TokenSvc) (r : Req)
    (hpw : e.WithPassword = true)
    (h : (∃ m, ts.get = .error m) ∨
         ∃ c, ts.get = .ok c ∧
           (c.Handshake = none ∨
            ∃ hs, c.Handshake = some hs ∧ hs.State ≠ gs "credentials")) :
    responseStatus (AuthHandler e ts r).response = some 500 ∧
    (AuthHandler e ts r).setClaims = none := by
  unfold AuthHandler
  rcases h with ⟨m, hm⟩ | ⟨c, hc, hh⟩
  · simp [hpw, hm, responseStatus]
  · rcases hh with hh | ⟨hs, hhs, hst⟩
    · simp [hpw, hc, hh, responseStatus]
    · simp [hpw, hc, hhs, hst, responseStatus]

/-- C3 witness: the amended statement at a concrete wrong-state run. -/
theorem C3_witness :
    responseStatus (AuthHandler ePw tsConfirm reqTok).response = some 500 ∧
    (AuthHandler ePw tsConfirm reqTok).setClaims = none :=
  C3_wrong_state_errors ePw tsConfirm reqTok rfl
    (Or.inr ⟨confClaims0, rfl,
      Or.inr ⟨{ State := gs "confirm", ID := gs "ann::a@b" }, rfl, by decide⟩⟩)

/-- Once validation passes, every branch of sendConfirmation records the same
built confirm claims. -/
theorem sendConfirmation_builtClaims (e : VerifyHandler) (ts : TokenSvc) (r : Req)
    (h : ¬(sanitize e.bm r.user = [] ∨ sanitize e.bm r.address = [])) :
    (sendConfirmation e ts r).builtClaims = some (confirmClaims e r) := by
  unfold sendConfirmation
  rw [if_neg h]
  split
  · rfl
  · split
    · rfl
    · split <;> rfl

/-- C5: for nonempty sanitized user and address, requestConfirmation builds a
claims with handshake state confirm, handshake ID the two sanitized fields
joined by the separator, the sanitized site as audience, no subject user, a
30-minute expiry and a one-minute backdated notBefore. -/
theorem C5_confirm_claims (e : VerifyHandler) (ts : TokenSvc) (r : Req)
    (hu : sanitize e.bm r.user ≠ [])
    (ha : sanitize e.bm r.address ≠ []) :
    ∃ c, (sendConfirmation e ts r).builtClaims = some c ∧
      c.Handshake = some
        { State := gs "confirm",
          ID := sanitize e.bm r.user ++ gs "::" ++ sanitize e.bm r.address,
          From := [] } ∧
      c.User = none ∧
      c.Audience = sanitize e.bm r.site ∧
      c.ExpiresAt = r.now + 30 * 60 ∧
      c.NotBefore = r.now - 60 :=
  ⟨confirmClaims e r,
    sendConfirmation_builtClaims e ts r (by rintro (h | h); exacts [hu h, ha h]),
    rfl, rfl, rfl, rfl, rfl⟩

/-- C5 witness: the built claims at a concrete confirmation run. -/
theorem C5_witness :
    ∃ c, (sendConfirmation eNoPw tsConfirm reqConf).builtClaims = some c ∧
      c.Handshake = some
        { State := gs "confirm",
          ID := sanitize eNoPw.bm reqConf.user ++ gs "::" ++
            sanitize eNoPw.bm reqConf.address,
          From := [] } ∧
      c.User = none ∧
      c.Audience = sanitize eNoPw.bm reqConf.site ∧
      c.ExpiresAt = reqConf.now + 30 * 60 ∧
      c.NotBefore = reqConf.now - 60 :=
  C5_confirm_claims eNoPw tsConfirm reqConf (by decide) (by decide)

/-- C7: requestConfirmation fails with the 400 validation error exactly when
the sanitized user or address is empty, and in that case no token is issued,
no claims is built, and nothing is dispatched to the sender. -/
theorem C7_validation (e : VerifyHandler) (ts : TokenSvc) (r : Req) :
    (responseStatus (sendConfirmation e ts r).response = some 400 ↔
      (sanitize e.bm r.user = [] ∨ sanitize e.bm r.address = [])) ∧
    ((sanitize e.bm r.user = [] ∨ sanitize e.bm r.address = []) →
      (sendConfirmation e ts r).sent = [] ∧
      (sendConfirmation e ts r).issuedToken = none ∧
      (sendConfirmation e ts r).builtClaims = none) := by
  by_cases h : sanitize e.bm r.user = [] ∨ sanitize e.bm r.address = []
  · refine ⟨⟨fun _ => h, fun _ => ?_⟩, fun _ => ?_⟩
    · unfold sendConfirmation
      rw [if_pos h]
      rfl
    · unfold sendConfirmation
      rw [if_pos h]
      exact ⟨rfl, rfl, rfl⟩
  · refine ⟨⟨fun hst => ?_, fun hemp => absurd hemp h⟩, fun hemp => absurd hemp h⟩
    exfalso
    revert hst
    unfold sendConfirmation
    rw [if_neg h]
    split
    · simp [responseStatus]
    · split
      · simp [responseStatus]
      · split <;> simp [responseStatus]

/-- C7 witness: a concrete run with an empty address dispatches nothing. -/
theorem C7_witness :
    (sendConfirmation eNoPw tsConfirm { reqConf with address := [] }).sent = [] ∧
    (sendConfirmation eNoPw tsConfirm { reqConf with address := [] }).issuedToken = none ∧
    (sendConfirmation eNoPw tsConfirm { reqConf with address := [] }).builtClaims = none :=
  (C7_validation eNoPw tsConfirm { reqConf with address := [] }).2 (by decide)

/-- A presented token that parses, is unexpired and carries a confirm-state
handshake reduces LoginHandler to the post-validation resolver. -/
theorem LoginHandler_confirmed (e : VerifyHandler) (ts : TokenSvc) (r : Req)
    (c : Claims) (hs : Handshake)
    (htk : r.token ≠ [])
    (hp : ts.parse r.token = .ok c)
    (he : ts.isExpired c = false)
    (hh : c.Handshake = some hs)
    (hst : hs.State = gs "confirm") :
    LoginHandler e ts r = resolveConfirmed e ts r c hs := by
  unfold LoginHandler
  simp [htk, hp, he, hh, hst]

/-- In password mode, a successful set reduces the resolver to the
acknowledgment carrying the credentials claims. -/
theorem resolveConfirmed_password (e : VerifyHandler) (ts : TokenSvc) (r : Req)
    (c : Claims) (hs : Handshake) (u a : GoStr)
    (hsplit : splitCC hs.ID = [u, a])
    (hpw : e.WithPassword = true)
    (hset : ts.set (credClaims e r hs.ID u a) = none) :
    resolveConfirmed e ts r c hs =
      { response := .json .ack, setClaims := some (credClaims e r hs.ID u a) } := by
  unfold resolveConfirmed
  simp [hsplit, hpw, hset]

/-- C6: with password mode on, resolving a valid unexpired confirm token sets
a credentials-state token with the same handshake ID, a freshly derived user
identity from the provider name and the address, and a 30-minute window, and
responds with the acknowledgment that carries no user object. -/
theorem C6_password_credentials (e : VerifyHandler) (ts : TokenSvc) (r : Req)
    (c : Claims) (hs : Handshake) (u a : GoStr)
    (hpw : e.WithPassword = true)
    (htk : r.token ≠ [])
    (hp : ts.parse r.token = .ok c)
    (he : ts.isExpired c = false)
    (hh : c.Handshake = some hs)
    (hst : hs.State = gs "confirm")
    (hsplit : splitCC hs.ID = [u, a])
    (hset : ts.set (credClaims e r hs.ID u a) = none) :
    ∃ cc, (LoginHandler e ts r).setClaims = some cc ∧
      cc.Handshake = some { State := gs "credentials", ID := hs.ID, From := [] } ∧
      (∃ cu, cc.User = some cu ∧
        cu.ID = e.ProviderName ++ gs "_" ++ e.hashID a ∧ cu.Name = u) ∧
      cc.ExpiresAt = r.now + 30 * 60 ∧
      cc.NotBefore = r.now - 60 ∧
      (LoginHandler e ts r).response = .json .ack := by
  rw [LoginHandler_confirmed e ts r c hs htk hp he hh hst,
    resolveConfirmed_password e ts r c hs u a hsplit hpw hset]
  exact ⟨credClaims e r hs.ID u a, rfl, rfl, ⟨_, rfl, rfl, rfl⟩, rfl, rfl, rfl⟩

/-- C6 witness: the credentials claims at a concrete password-mode run. -/
theorem C6_witness :
    ∃ cc, (LoginHandler ePw tsConfirm reqTok).setClaims = some cc ∧
      cc.Handshake = some
        { State := gs "credentials", ID := gs "ann::a@b", From := [] } ∧
      (∃ cu, cc.User = some cu ∧
        cu.ID = ePw.ProviderName ++ gs "_" ++ ePw.hashID (gs "a@b") ∧
        cu.Name = gs "ann") ∧
      cc.ExpiresAt = reqTok.now + 30 * 60 ∧
      cc.NotBefore = reqTok.now - 60 ∧
      (LoginHandler ePw tsConfirm reqTok).response = .json .ack :=
  C6_password_credentials ePw tsConfirm reqTok confClaims0
    { State := gs "confirm", ID := gs "ann::a@b" } (gs "ann") (gs "a@b")
    rfl (by decide) rfl rfl rfl rfl (by decide) rfl

/-- A handshake ID that does not split into exactly two parts makes the
resolver answer the 400 error without touching the token service. -/
theorem resolveConfirmed_malformed (e : VerifyHandler) (ts : TokenSvc) (r : Req)
    (c : Claims) (hs : Handshake)
    (hlen : (splitCC hs.ID).length ≠ 2) :
    resolveConfirmed e ts r c hs =
      { response := .error 400 hs.ID (gs "invalid handshake token") } := by
  unfold resolveConfirmed
  split
  · rename_i user address heq
    exact absurd (by rw [heq]; rfl) hlen
  · rfl

/-- When the handshake ID splits into two parts, no branch of the resolver
answers status 400. -/
theorem resolveConfirmed_split2_status (e : VerifyHandler) (ts : TokenSvc)
    (r : Req) (c : Claims) (hs : Handshake) (u a : GoStr)
    (hsplit : splitCC hs.ID = [u, a]) :
    responseStatus (resolveConfirmed e ts r c hs).response ≠ some 400 := by
  unfold resolveConfirmed
  rw [hsplit]
  repeat' split
  all_goals simp [responseStatus]

/-- C8: for a parsed, unexpired confirm token, the resolver answers the 400
malformed-handshake error exactly when the handshake ID does not split into
two parts on the separator, and in that case it sets no token. -/
theorem C8_malformed_split (e : VerifyHandler) (ts : TokenSvc) (r : Req)
    (c : Claims) (hs : Handshake)
    (htk : r.token ≠ [])
    (hp : ts.parse r.token = .ok c)
    (he : ts.isExpired c = false)
    (hh : c.Handshake = some hs)
    (hst : hs.State = gs "confirm") :
    (responseStatus (LoginHandler e ts r).response = some 400 ↔
      (splitCC hs.ID).length ≠ 2) ∧
    ((splitCC hs.ID).length ≠ 2 →
      (LoginHandler e ts r).setClaims = none ∧
      (LoginHandler e ts r).response =
        .error 400 hs.ID (gs "invalid handshake token")) := by
  rw [LoginHandler_confirmed e ts r c hs htk hp he hh hst]
  by_cases hlen : (splitCC hs.ID).length = 2
  · obtain ⟨u, a, hsplit⟩ := List.length_eq_two.mp hlen
    refine ⟨⟨fun h400 => ?_, fun hne => absurd hlen hne⟩, fun hne => absurd hlen hne⟩
    exact absurd h400 (resolveConfirmed_split2_status e ts r c hs u a hsplit)
  · rw [resolveConfirmed_malformed e ts r c hs hlen]
    exact ⟨⟨fun _ => hlen, fun _ => rfl⟩, fun _ => ⟨rfl, rfl⟩⟩

/-- A token service parsing to a confirm claims whose handshake ID carries no
separator at all. -/
def tsBadID : TokenSvc := { tsConfirm with
  parse := fun _ => .ok { Handshake := some { State := gs "confirm", ID := gs "annab" } } }

/-- C8 witness: a concrete separator-free handshake ID is rejected with the
400 error and no token is set. -/
theorem C8_witness :
    (LoginHandler eNoPw tsBadID reqTok).setClaims = none ∧
    (LoginHandler eNoPw tsBadID reqTok).response =
      .error 400 (gs "annab") (gs "invalid handshake token") :=
  (C8_malformed_split eNoPw tsBadID reqTok
    { Handshake := some { State := gs "confirm", ID := gs "annab" } }
    { State := gs "confirm", ID := gs "annab" }
    (by decide) rfl rfl rfl rfl).2 (by decide)

/-- sendConfirmation never sets a session token. -/
theorem sendConfirmation_setClaims (e : VerifyHandler) (ts : TokenSvc) (r : Req) :
    (sendConfirmation e ts r).setClaims = none := by
  unfold sendConfirmation
  repeat' split
  all_goals rfl

/-- Every claims set by the resolver carries the sessionOnly flag parsed from
the resolving request by strict equality with 1. -/
theorem resolveConfirmed_sessionOnly (e : VerifyHandler) (ts : TokenSvc)
    (r : Req) (c : Claims) (hs : Handshake) (cl : Claims)
    (h : (resolveConfirmed e ts r c hs).setClaims = some cl) :
    cl.SessionOnly = (r.session == gs "1") := by
  unfold resolveConfirmed at h
  repeat' split at h
  all_goals cases h
  all_goals rfl

/-- Every claims set by LoginHandler carries the sessionOnly flag parsed from
the resolving request by strict equality with 1. -/
theorem LoginHandler_sessionOnly (e : VerifyHandler) (ts : TokenSvc) (r : Req)
    (cl : Claims)
    (h : (LoginHandler e ts r).setClaims = some cl) :
    cl.SessionOnly = (r.session == gs "1") := by
  unfold LoginHandler at h
  split at h
  · rw [sendConfirmation_setClaims] at h; cases h
  · repeat' split at h
    all_goals first
      | cases h
      | exact resolveConfirmed_sessionOnly _ _ _ _ _ _ h

/-- Every confirmation claims built by sendConfirmation records sessionOnly
as true for any nonempty session value other than 0. -/
theorem sendConfirmation_sessionOnly (e : VerifyHandler) (ts : TokenSvc)
    (r : Req) (c2 : Claims)
    (h : (sendConfirmation e ts r).builtClaims = some c2) :
    c2.SessionOnly = (!(r.session == []) && !(r.session == gs "0")) := by
  unfold sendConfirmation at h
  repeat' split at h
  all_goals cases h
  all_goals rfl

/-- C9: the sessionOnly flag of every token set by the resolver comes from
the resolving request session parameter being exactly 1 — whatever the
presented token carried — while confirmation issuance records sessionOnly as
true for any nonempty session value other than 0; at the same session value
2 the two steps record different flags. -/
theorem C9_sessionOnly :
    (∀ (e : VerifyHandler) (ts : TokenSvc) (r : Req) (cl : Claims),
      (LoginHandler e ts r).setClaims = some cl →
        cl.SessionOnly = (r.session == gs "1")) ∧
    (∀ (e : VerifyHandler) (ts : TokenSvc) (r : Req) (c2 : Claims),
      (sendConfirmation e ts r).builtClaims = some c2 →
        c2.SessionOnly = (!(r.session == []) && !(r.session == gs "0"))) ∧
    ((sendConfirmation eNoPw tsConfirm reqConf).builtClaims.map Claims.SessionOnly
        = some true ∧
      (LoginHandler ePw tsConfirm reqTok).setClaims.map Claims.SessionOnly
        = some false) :=
  ⟨LoginHandler_sessionOnly, sendConfirmation_sessionOnly, by decide, by decide⟩

/-- C9 witness: the resolver flag at a concrete run with session value 2. -/
theorem C9_witness :
    (credClaims ePw reqTok (gs "ann::a@b") (gs "ann") (gs "a@b")).SessionOnly =
      (reqTok.session == gs "1") :=
  C9_sessionOnly.1 ePw tsConfirm reqTok _ (by decide)

/-- Once validation and signing pass, every later branch of sendConfirmation
hands the template the same data. -/
theorem sendConfirmation_tmpl (e : VerifyHandler) (ts : TokenSvc) (r : Req)
    (tkn : GoStr)
    (h : ¬(sanitize e.bm r.user = [] ∨ sanitize e.bm r.address = []))
    (hsig : ts.token (confirmClaims e r) = .ok tkn) :
    (sendConfirmation e ts r).tmpl = some (confirmTmpl e r tkn) := by
  unfold sendConfirmation
  rw [if_neg h]
  simp only [hsig]
  repeat' split
  all_goals rfl

/-- A confirmation request whose site value carries trailing whitespace. -/
def reqSite : Req := { reqConf with site := gs "s1 " }

/-- C10: the rendered message data carries the raw site query value while the
signed confirmation claims carry the sanitized site as audience, and at a
concrete input with trailing whitespace the two differ. -/
theorem C10_raw_site (e : VerifyHandler) (ts : TokenSvc) (r : Req) (tkn : GoStr)
    (h : ¬(sanitize e.bm r.user = [] ∨ sanitize e.bm r.address = []))
    (hsig : ts.token (confirmClaims e r) = .ok tkn) :
    ((sendConfirmation e ts r).tmpl.map TmplData.Site = some r.site) ∧
    ((sendConfirmation e ts r).builtClaims.map Claims.Audience =
      some (sanitize e.bm r.site)) ∧
    ((sendConfirmation eNoPw tsConfirm reqSite).tmpl.map TmplData.Site ≠
      (sendConfirmation eNoPw tsConfirm reqSite).builtClaims.map Claims.Audience) := by
  refine ⟨?_, ?_, by decide⟩
  · rw [sendConfirmation_tmpl e ts r tkn h hsig]; rfl
  · rw [sendConfirmation_builtClaims e ts r h]; rfl

/-- C10 witness: the raw site reaches the template at a concrete run. -/
theorem C10_witness :
    (sendConfirmation eNoPw tsConfirm reqSite).tmpl.map TmplData.Site =
      some reqSite.site :=
  (C10_raw_site eNoPw tsConfirm reqSite (gs "tok") (by decide) rfl).1

/-- The gravatar step only ever touches the picture. -/
theorem applyGravatar_ID (e : VerifyHandler) (ad : GoStr) (u : User) :
    (applyGravatar e ad u).ID = u.ID ∧ (applyGravatar e ad u).Name = u.Name := by
  unfold applyGravatar
  repeat' split
  all_goals exact ⟨rfl, rfl⟩

/-- The avatar-persistence step only ever touches the picture. -/
theorem setAvatar_ok_ID (ava : Option (User → Except GoStr GoStr)) (u w : User)
    (h : setAvatar ava u = .ok w) : w.ID = u.ID ∧ w.Name = u.Name := by
  unfold setAvatar at h
  repeat' split at h
  all_goals cases h
  all_goals exact ⟨rfl, rfl⟩

/-- With password mode off and all collaborators succeeding, the resolver
sets the final claims built from the resolved user, the fresh id and the
audience of the confirmation token. -/
theorem resolveConfirmed_noPassword (e : VerifyHandler) (ts : TokenSvc)
    (r : Req) (c : Claims) (hs : Handshake) (u a : GoStr) (u2 : User) (cid : GoStr)
    (hsplit : splitCC hs.ID = [u, a])
    (hpw : e.WithPassword = false)
    (hava : setAvatar e.AvatarSaver (applyGravatar e a
      (resolvedUser e u a)) = .ok u2)
    (hsave : userSaverRun e.UserSaver u2 = none)
    (hrand : r.randToken = .ok cid)
    (hset : ts.set (finalClaims e r u2 cid c.Audience) = none) :
    (resolveConfirmed e ts r c hs).setClaims =
      some (finalClaims e r u2 cid c.Audience) := by
  unfold resolveConfirmed
  simp [hsplit, hpw, hava, hsave, hrand, hset]
  split <;> rfl

/-- The subject user ID inside the claims a run set, when any. -/
def setUserID (o : Out) : Option GoStr := (o.setClaims.bind Claims.User).map User.ID

/-- A full passwordless resolution pins the set subject user ID to the
provider name joined to the hash of the address. -/
theorem LoginHandler_noPassword_userID (e : VerifyHandler) (ts : TokenSvc)
    (r : Req) (c : Claims) (hs : Handshake) (u a : GoStr) (u2 : User) (cid : GoStr)
    (htk : r.token ≠ [])
    (hp : ts.parse r.token = .ok c)
    (he : ts.isExpired c = false)
    (hh : c.Handshake = some hs)
    (hst : hs.State = gs "confirm")
    (hsplit : splitCC hs.ID = [u, a])
    (hpw : e.WithPassword = false)
    (hava : setAvatar e.AvatarSaver (applyGravatar e a
      (resolvedUser e u a)) = .ok u2)
    (hsave : userSaverRun e.UserSaver u2 = none)
    (hrand : r.randToken = .ok cid)
    (hset : ts.set (finalClaims e r u2 cid c.Audience) = none) :
    setUserID (LoginHandler e ts r) =
      some (e.ProviderName ++ gs "_" ++ e.hashID a) := by
  rw [setUserID, LoginHandler_confirmed e ts r c hs htk hp he hh hst,
    resolveConfirmed_noPassword e ts r c hs u a u2 cid hsplit hpw hava hsave hrand hset]
  have h2 := setAvatar_ok_ID _ _ _ hava
  have h3 := applyGravatar_ID e a (resolvedUser e u a)
  simp [finalClaims, h2.1, h3.1]
  simp [resolvedUser]

/-- C4: with password mode off, resolving a valid unexpired confirm token
whose handshake ID splits into user and address yields a final claims with no
handshake, a subject user whose ID is derived only from the provider name and
the hash of the address, and the audience copied from the confirmation token;
a second resolution with the same handler and the same address yields the
same subject user ID. -/
theorem C4_passwordless_final (e : VerifyHandler)
    (ts : TokenSvc) (r : Req) (c : Claims) (hs : Handshake)
    (u a : GoStr) (u2 : User) (cid : GoStr)
    (ts₂ : TokenSvc) (r₂ : Req) (c₂ : Claims) (hs₂ : Handshake)
    (u' : GoStr) (v2 : User) (cid₂ : GoStr)
    (hpw : e.WithPassword = false)
    (htk : r.token ≠ []) (hp : ts.parse r.token = .ok c)
    (he : ts.isExpired c = false) (hh : c.Handshake = some hs)
    (hst : hs.State = gs "confirm") (hsplit : splitCC hs.ID = [u, a])
    (hava : setAvatar e.AvatarSaver (applyGravatar e a (resolvedUser e u a)) = .ok u2)
    (hsave : userSaverRun e.UserSaver u2 = none)
    (hrand : r.randToken = .ok cid)
    (hset : ts.set (finalClaims e r u2 cid c.Audience) = none)
    (htk₂ : r₂.token ≠ []) (hp₂ : ts₂.parse r₂.token = .ok c₂)
    (he₂ : ts₂.isExpired c₂ = false) (hh₂ : c₂.Handshake = some hs₂)
    (hst₂ : hs₂.State = gs "confirm") (hsplit₂ : splitCC hs₂.ID = [u', a])
    (hava₂ : setAvatar e.AvatarSaver (applyGravatar e a (resolvedUser e u' a)) = .ok v2)
    (hsave₂ : userSaverRun e.UserSaver v2 = none)
    (hrand₂ : r₂.randToken = .ok cid₂)
    (hset₂ : ts₂.set (finalClaims e r₂ v2 cid₂ c₂.Audience) = none) :
    (∃ fc, (LoginHandler e ts r).setClaims = some fc ∧
      fc.Handshake = none ∧
      (∃ fu, fc.User = some fu ∧
        fu.ID = e.ProviderName ++ gs "_" ++ e.hashID a ∧ fu.Name = u) ∧
      fc.Audience = c.Audience) ∧
    setUserID (LoginHandler e ts₂ r₂) = setUserID (LoginHandler e ts r) := by
  constructor
  · rw [LoginHandler_confirmed e ts r c hs htk hp he hh hst]
    refine ⟨finalClaims e r u2 cid c.Audience,
      resolveConfirmed_noPassword e ts r c hs u a u2 cid hsplit hpw hava hsave hrand hset,
      rfl, ⟨u2, rfl, ?_, ?_⟩, rfl⟩
    · exact (setAvatar_ok_ID _ _ _ hava).1.trans (applyGravatar_ID e a _).1
    · exact (setAvatar_ok_ID _ _ _ hava).2.trans (applyGravatar_ID e a _).2
  · rw [LoginHandler_noPassword_userID e ts₂ r₂ c₂ hs₂ u' a v2 cid₂
        htk₂ hp₂ he₂ hh₂ hst₂ hsplit₂ hpw hava₂ hsave₂ hrand₂ hset₂,
      LoginHandler_noPassword_userID e ts r c hs u a u2 cid
        htk hp he hh hst hsplit hpw hava hsave hrand hset]

/-- C4 witness: a concrete passwordless resolution. -/
theorem C4_witness :
    (∃ fc, (LoginHandler eNoPw tsConfirm reqTok).setClaims = some fc ∧
      fc.Handshake = none ∧
      (∃ fu, fc.User = some fu ∧
        fu.ID = eNoPw.ProviderName ++ gs "_" ++ eNoPw.hashID (gs "a@b") ∧
        fu.Name = gs "ann") ∧
      fc.Audience = confClaims0.Audience) ∧
    setUserID (LoginHandler eNoPw tsConfirm reqTok) =
      setUserID (LoginHandler eNoPw tsConfirm reqTok) :=
  C4_passwordless_final eNoPw tsConfirm reqTok confClaims0
    { State := gs "confirm", ID := gs "ann::a@b" } (gs "ann") (gs "a@b")
    (resolvedUser eNoPw (gs "ann") (gs "a@b")) (gs "cid")
    tsConfirm reqTok confClaims0
    { State := gs "confirm", ID := gs "ann::a@b" } (gs "ann")
    (resolvedUser eNoPw (gs "ann") (gs "a@b")) (gs "cid")
    rfl (by decide) rfl rfl rfl rfl (by decide) rfl rfl rfl rfl
    (by decide) rfl rfl rfl rfl (by decide) rfl rfl rfl rfl
